import Mathlib

/-!
Verification of the GeonsitQ district scoring, caching and observer pipeline.

This file shallowly embeds the core of the repository:

* `src/src/strategies/base_strategy.py` and the three concrete strategies
  (`qol_strategy.py`, `tourist_strategy.py`, `convenience_strategy.py`);
* `src/src/analyzers/metrics_calculator.py` (the four geometry reducers,
  with the geometric primitives — intersection areas, point-in-polygon
  counts, distances — abstracted into explicit inputs);
* `src/src/analyzers/normalizer.py` (`normalize_min_max`);
* the cache read/compute paths of `src/src/analyzers/district_analyzer.py`
  (`get_cached_metrics`, `analyze_all_districts`);
* `src/src/observers/map_state.py` (`MapState` setters and `notify`) and
  `src/src/observers/cache_observer.py` (`CacheObserver.update`).

Python floats are modelled as exact rationals (`ℚ`); a value that can be
`NaN` (pandas missing value) is modelled by the two-constructor type
`PyFloat`.  Stateful methods are modelled as pure functions from the old
state to the new state together with the list of notification events the
call emits (one event per `notify` invocation; `notify` delivers the event
to every registered observer in attachment order, so "no observer's update
method is invoked" is exactly "the emitted event list is empty").
-/

namespace GeonsitQ

/-- Model of a Python float as stored in a metrics dict: either `NaN`
(a pandas missing value, for which `pd.notna` is false) or a rational. -/
inductive PyFloat where
  | nan : PyFloat
  | val : ℚ → PyFloat
deriving DecidableEq, Repr

/-- Embeds `pd.notna(value)` for a scalar float. -/
def pd_notna : PyFloat → Bool
  | .nan => false
  | .val _ => true

/-- A metrics dict (`Dict[str, float]` in the source), as an association
list with unique keys; `List.lookup` returns the first binding. -/
abbrev Metrics := List (String × PyFloat)

/-- Dict membership plus value lookup: `metrics[m]` when `m in metrics`. -/
def metricsLookup (m : Metrics) (k : String) : Option PyFloat :=
  List.lookup k m

/-- Embeds Python `metrics.get(key, default)` (the default is a plain
float, so the result of a miss is never `NaN`). -/
def metricsGet (m : Metrics) (k : String) (d : ℚ) : PyFloat :=
  match metricsLookup m k with
  | some v => v
  | none => PyFloat.val d

/-- Python `value < c` where `value` may be `NaN`: every comparison with
`NaN` is false. -/
def pyLt : PyFloat → ℚ → Bool
  | .nan, _ => false
  | .val v, c => decide (v < c)

/-- Python `value > c` where `value` may be `NaN`. -/
def pyGt : PyFloat → ℚ → Bool
  | .nan, _ => false
  | .val v, c => decide (c < v)

/-! ### BaseStrategy.calculate_score (src/src/strategies/base_strategy.py, lines 29-58) -/

/-- One iteration of the `for metric, weight in self._weights.items()`
loop of `calculate_score`: accumulates `(total_score, total_weight)`,
skipping metrics absent from the input dict and metrics whose value fails
`pd.notna`. -/
def scoreStep (metrics : Metrics) (acc : ℚ × ℚ) (p : String × ℚ) : ℚ × ℚ :=
  match metricsLookup metrics p.1 with
  | some (PyFloat.val v) => (acc.1 + v * p.2, acc.2 + p.2)
  | _ => acc

/-- Embeds `BaseStrategy.calculate_score`: iterate the weight map,
accumulate weighted values and available weight, then divide, returning
`0.0` unless the accumulated weight is strictly positive. -/
def calculate_score (weights : List (String × ℚ)) (metrics : Metrics) : ℚ :=
  let r := weights.foldl (scoreStep metrics) ((0 : ℚ), (0 : ℚ))
  if 0 < r.2 then r.1 / r.2 else 0

/-! Spec-side formulation of the same quantity (written from the words of
the specification, for the refinement claim C1): the weight-normalized
average over exactly the metrics that appear in both the weight map and
the input with a non-NaN value. -/

/-- A metric name is available: present in the metrics dict with a
non-`NaN` value. -/
def metricAvailable (metrics : Metrics) (k : String) : Bool :=
  match metricsLookup metrics k with
  | some (PyFloat.val _) => true
  | _ => false

/-- The (non-`NaN`) value of an available metric. -/
def metricValue (metrics : Metrics) (k : String) : ℚ :=
  match metricsLookup metrics k with
  | some (PyFloat.val v) => v
  | _ => 0

/-- Total weight `Σ weight_m` over the available metrics. -/
def availWeight (weights : List (String × ℚ)) (metrics : Metrics) : ℚ :=
  ((weights.filter fun p => metricAvailable metrics p.1).map Prod.snd).sum

/-- Weighted sum `Σ weight_m * metrics[m]` over the available metrics. -/
def availWeightedSum (weights : List (String × ℚ)) (metrics : Metrics) : ℚ :=
  ((weights.filter fun p => metricAvailable metrics p.1).map
    fun p => p.2 * metricValue metrics p.1).sum

/-- The score exactly as the specification words it: the
weight-normalized average over available metrics, and `0` when the total
available weight is `0`. -/
def specScore (weights : List (String × ℚ)) (metrics : Metrics) : ℚ :=
  if availWeight weights metrics = 0 then 0
  else availWeightedSum weights metrics / availWeight weights metrics

/-! ### The three concrete strategies -/

/-- Weight map of `QualityOfLifeStrategy._default_weights`
(dict insertion order preserved). -/
def qol_weights : List (String × ℚ) :=
  [("safety", 40/100), ("transport", 35/100), ("green", 25/100), ("services", 0)]

/-- Weight map of `TouristStrategy._default_weights`. -/
def tourist_weights : List (String × ℚ) :=
  [("services", 40/100), ("safety", 35/100), ("transport", 25/100), ("green", 0)]

/-- Weight map of `ConvenienceStrategy._default_weights`. -/
def convenience_weights : List (String × ℚ) :=
  [("services", 45/100), ("transport", 35/100), ("green", 20/100), ("safety", 0)]

/-- A strategy: weight map plus the two adjustment hooks. -/
structure Strategy where
  weights : List (String × ℚ)
  apply_penalties : Metrics → ℚ → ℚ
  apply_bonuses : Metrics → ℚ → ℚ

/-- `QualityOfLifeStrategy.apply_penalties`: 20% penalty when
`metrics.get('safety', 0.5) < 0.3`. -/
def qol_apply_penalties (metrics : Metrics) (base_score : ℚ) : ℚ :=
  if pyLt (metricsGet metrics "safety" (5/10)) (3/10) then base_score * (8/10)
  else base_score

/-- `QualityOfLifeStrategy.apply_bonuses`: 10% bonus (capped at 1.0) when
`safety > 0.8` and `green > 0.6` (defaults 0.0). -/
def qol_apply_bonuses (metrics : Metrics) (base_score : ℚ) : ℚ :=
  if pyGt (metricsGet metrics "safety" 0) (8/10) &&
     pyGt (metricsGet metrics "green" 0) (6/10) then
    min (base_score * (11/10)) 1
  else base_score

/-- `TouristStrategy.apply_penalties`: 30% penalty when `safety < 0.4`,
else 10% penalty when `safety < 0.6` (default 0.5). -/
def tourist_apply_penalties (metrics : Metrics) (base_score : ℚ) : ℚ :=
  if pyLt (metricsGet metrics "safety" (5/10)) (4/10) then base_score * (7/10)
  else if pyLt (metricsGet metrics "safety" (5/10)) (6/10) then base_score * (9/10)
  else base_score

/-- `TouristStrategy.apply_bonuses`: 15% bonus when `services > 0.7`,
else 10% bonus when `transport > 0.8`, both capped at 1.0. -/
def tourist_apply_bonuses (metrics : Metrics) (base_score : ℚ) : ℚ :=
  if pyGt (metricsGet metrics "services" 0) (7/10) then
    min (base_score * (115/100)) 1
  else if pyGt (metricsGet metrics "transport" 0) (8/10) then
    min (base_score * (11/10)) 1
  else base_score

/-- `ConvenienceStrategy.apply_penalties`: 15% penalty when
`services < 0.3` or `transport < 0.3` (defaults 0.0). -/
def convenience_apply_penalties (metrics : Metrics) (base_score : ℚ) : ℚ :=
  if pyLt (metricsGet metrics "services" 0) (3/10) ||
     pyLt (metricsGet metrics "transport" 0) (3/10) then
    base_score * (85/100)
  else base_score

/-- `ConvenienceStrategy.apply_bonuses`: 20% bonus when services,
transport and green are all `> 0.6`; else 10% bonus when
`services > 0.7` and `transport > 0.7`; capped at 1.0. -/
def convenience_apply_bonuses (metrics : Metrics) (base_score : ℚ) : ℚ :=
  if pyGt (metricsGet metrics "services" 0) (6/10) &&
     pyGt (metricsGet metrics "transport" 0) (6/10) &&
     pyGt (metricsGet metrics "green" 0) (6/10) then
    min (base_score * (12/10)) 1
  else if pyGt (metricsGet metrics "services" 0) (7/10) &&
          pyGt (metricsGet metrics "transport" 0) (7/10) then
    min (base_score * (11/10)) 1
  else base_score

/-- The quality-of-life strategy. -/
def qolStrategy : Strategy :=
  ⟨qol_weights, qol_apply_penalties, qol_apply_bonuses⟩

/-- The tourist strategy. -/
def touristStrategy : Strategy :=
  ⟨tourist_weights, tourist_apply_penalties, tourist_apply_bonuses⟩

/-- The convenience strategy. -/
def convenienceStrategy : Strategy :=
  ⟨convenience_weights, convenience_apply_penalties, convenience_apply_bonuses⟩

/-- Embeds `BaseStrategy.calculate_final_score`: base score, penalties,
bonuses, then clip to `[0, 1]` via `max(0.0, min(1.0, score))`. -/
def calculate_final_score (s : Strategy) (metrics : Metrics) : ℚ :=
  let base_score := calculate_score s.weights metrics
  let score_with_penalties := s.apply_penalties metrics base_score
  let final_score := s.apply_bonuses metrics score_with_penalties
  max 0 (min 1 final_score)

/-! ### Metric calculators (src/src/analyzers/metrics_calculator.py)

The geometric primitives (intersection areas, point-in-polygon counts,
centroid distances) are abstracted into explicit inputs; the arithmetic
that reduces them to scores is embedded verbatim. -/

/-- A crime zone intersecting the district: its ordinal severity code
(`gridcode` field) and the area of its intersection with the district
polygon (`0` when the intersection is empty). -/
structure CrimeZone where
  gridcode : ℚ
  interArea : ℚ
deriving DecidableEq, Repr

/-- One iteration of the crime-zone loop of `calculate_safety_score`:
skip empty or nonpositive-area intersections, skip out-of-domain
severities, otherwise accumulate `(Σ gridcode*area, Σ area)`. -/
def safetyStep (acc : ℚ × ℚ) (z : CrimeZone) : ℚ × ℚ :=
  if z.interArea ≤ 0 then acc
  else if 1 ≤ z.gridcode ∧ z.gridcode ≤ 5 then
    (acc.1 + z.gridcode * z.interArea, acc.2 + z.interArea)
  else acc

/-- Embeds `calculate_safety_score` (lines 26-145).  `polygonValid` is
`district_polygon is not None and district_polygon.is_valid`; the crime
layer is `none` when it is absent, empty, or lacks the gridcode field
(all three return the neutral 0.5); `zones` is the list of crime features
that intersect the district.  `min 1 (max 0 _)` is `np.clip(_, 0.0, 1.0)`. -/
def calculate_safety_score (polygonValid : Bool)
    (crime : Option (List CrimeZone)) (invert_scale : Bool) : ℚ :=
  if polygonValid = false then 1/2
  else
    match crime with
    | none => 1/2
    | some zones =>
      if zones.isEmpty then 1/2
      else
        let r := zones.foldl safetyStep ((0 : ℚ), (0 : ℚ))
        if r.2 = 0 then 1/2
        else
          let avg_gridcode := r.1 / r.2
          let safety_score :=
            if invert_scale then (5 - avg_gridcode) / 4 else (avg_gridcode - 1) / 4
          min 1 (max 0 safety_score)

/-- Bus-stop data for one district: the number of stops strictly inside
the polygon and the polygon area converted to km². -/
structure BusStopsInput where
  numStops : ℕ
  areaKm2 : ℚ
deriving DecidableEq, Repr

/-- Metro data for one district: either station points (`numInside`
stations inside the polygon; `nearestDist` the centroid-to-nearest
distance when a station lies within the 2000-unit search cutoff, `none`
when the centroid is unavailable or no station is within the cutoff) or
only line geometry (`intersects` the polygon; else the centroid-to-line
minimum distance, `none` when the centroid is unavailable). -/
inductive MetroInput where
  | stations (numInside : ℕ) (nearestDist : Option ℚ)
  | line (intersects : Bool) (minDist : Option ℚ)
deriving DecidableEq, Repr

/-- The metro sub-score of `calculate_transport_score`. -/
def metro_component : MetroInput → ℚ
  | .stations numInside nearestDist =>
    if 0 < numInside then 1
    else
      match nearestDist with
      | some distance =>
        if distance < 500 then 8/10
        else if distance < 1000 then 6/10
        else if distance < 2000 then 3/10
        else 0
      | none => 0
  | .line intersects minDist =>
    if intersects then 7/10
    else
      match minDist with
      | some d =>
        if d < 1000 then 4/10
        else if d < 2000 then 2/10
        else 0
      | none => 0

/-- Inputs of `calculate_transport_score`: each component is `none` when
its layer is absent or empty (its weight is then redistributed).
`uniqueRoutes` is the count of distinct route identifiers among routes
intersecting the polygon (`some 0` when no route intersects or the
identifier field is missing). -/
structure TransportInput where
  polygonValid : Bool
  busStops : Option BusStopsInput
  uniqueRoutes : Option ℕ
  metro : Option MetroInput
deriving DecidableEq, Repr

/-- Embeds `calculate_transport_score` (lines 148-335) with its default
weights `{bus_density: 0.4, route_connectivity: 0.3, metro: 0.3}` (the
analyzer always calls it with the defaults).  Each available component
contributes `score * weight / total_available_weight`; the result is
`np.clip`-ped to `[0, 1]`. -/
def calculate_transport_score (inp : TransportInput) : ℚ :=
  if inp.polygonValid = false then 0
  else
    let busScore : Option ℚ :=
      match inp.busStops with
      | some b =>
        some (if 0 < b.areaKm2 then min ((b.numStops : ℚ) / b.areaKm2 / 10) 1 else 0)
      | none => none
    let routeScore : Option ℚ :=
      match inp.uniqueRoutes with
      | some n => some (min ((n : ℚ) / 5) 1)
      | none => none
    let metroScore : Option ℚ := inp.metro.map metro_component
    let avail : List (ℚ × ℚ) :=
      (match busScore with | some s => [(s, 4/10)] | none => []) ++
      (match routeScore with | some s => [(s, 3/10)] | none => []) ++
      (match metroScore with | some s => [(s, 3/10)] | none => [])
    if avail.isEmpty then 0
    else
      let total_weight := (avail.map Prod.snd).sum
      if total_weight = 0 then 0
      else
        let final_score := (avail.map fun p => p.1 * (p.2 / total_weight)).sum
        min 1 (max 0 final_score)

/-- A park feature: its geometry type flag (`Polygon`/`MultiPolygon`),
its area in the projected UTM frame (m²), the validity of its geometry,
whether it intersects the district, and its intersection area with the
district polygon. -/
structure Park where
  isPolygonal : Bool
  areaUTM : ℚ
  geomValid : Bool
  intersectsDistrict : Bool
  interArea : ℚ
deriving DecidableEq, Repr

/-- Embeds `calculate_area_coverage` (src/src/utils/spatial_utils.py,
lines 45-94): sum of pairwise intersection areas over intersecting,
valid geometries, divided by the polygon area, capped at 1. -/
def calculate_area_coverage (polygonValid : Bool) (polygonArea : ℚ)
    (layer : List Park) : ℚ :=
  if polygonValid = false then 0
  else if layer.isEmpty then 0
  else if polygonArea = 0 then 0
  else
    let intersecting := layer.filter fun p => p.intersectsDistrict
    if intersecting.isEmpty then 0
    else
      let total := (intersecting.map fun p => if p.geomValid then p.interArea else 0).sum
      min (total / polygonArea) 1

/-- Embeds `calculate_green_score` (lines 337-417): keep polygonal
geometries, drop parks below `min_park_area` (UTM area), compute the
covered fraction of the district, divide by `ideal_coverage` and cap at
1.  A zero `ideal_coverage` raises `ZeroDivisionError` in Python, which
the surrounding handler converts to the fallback `0.0`; division by zero
in `ℚ` also yields `0`, and the branch makes this explicit. -/
def calculate_green_score (polygonValid : Bool) (polygonArea : ℚ)
    (parks : Option (List Park)) (ideal_coverage : ℚ) (min_park_area : ℚ) : ℚ :=
  if polygonValid = false then 0
  else
    match parks with
    | none => 0
    | some parks_gdf =>
      if parks_gdf.isEmpty then 0
      else
        let parks_filtered := parks_gdf.filter fun p => p.isPolygonal
        if parks_filtered.isEmpty then 0
        else
          let parks_min := parks_filtered.filter fun p => min_park_area ≤ p.areaUTM
          if parks_min.isEmpty then 0
          else
            let coverage := calculate_area_coverage polygonValid polygonArea parks_min
            if ideal_coverage = 0 then 0
            else min (coverage / ideal_coverage) 1

/-- A point of interest inside the district; `shop`/`tourism` are `none`
when the field is absent or its value fails `pd.notna`. -/
structure POI where
  shop : Option String
  tourism : Option String
deriving DecidableEq, Repr

/-- The default POI weight table of `calculate_services_score`. -/
def services_weight_table : List (String × ℚ) :=
  [("mall", 15/10), ("museum", 12/10), ("attraction", 1), ("viewpoint", 1),
   ("gallery", 1), ("theme_park", 12/10), ("other", 8/10)]

/-- The per-POI weight: a non-null `shop` field is consulted first (only
`'mall'` upgrades the weight; any other shop value keeps the default and,
because of the `elif`, the tourism field is then not consulted); else a
non-null `tourism` field is looked up in the table, defaulting to
`'other'`. -/
def poi_weight (p : POI) : ℚ :=
  match p.shop with
  | some s => if s = "mall" then 15/10 else 8/10
  | none =>
    match p.tourism with
    | some t =>
      match List.lookup t services_weight_table with
      | some w => w
      | none => 8/10
    | none => 8/10

/-- Embeds `calculate_services_score` (lines 420-517) with its default
weight table (the analyzer always calls it with the defaults).
`layerPresent` is `tourist_places_gdf is not None and len > 0`;
`pois_in_district` is the result of `points_in_polygon`. -/
def calculate_services_score (polygonValid : Bool) (layerPresent : Bool)
    (pois_in_district : List POI) : ℚ :=
  if polygonValid = false then 0
  else if layerPresent = false then 0
  else if pois_in_district.isEmpty then 0
  else min ((pois_in_district.map poi_weight).sum / 10) 1

/-! ### Concrete scenario data (claim C7) -/

/-- District A of the example scenario. -/
def metricsA : Metrics :=
  [("safety", PyFloat.val (8/10)), ("transport", PyFloat.val (7/10)),
   ("green", PyFloat.val (6/10)), ("services", PyFloat.val (5/10))]

/-- District B of the example scenario. -/
def metricsB : Metrics :=
  [("safety", PyFloat.val (6/10)), ("transport", PyFloat.val (8/10)),
   ("green", PyFloat.val (4/10)), ("services", PyFloat.val (7/10))]

/-- District C of the example scenario. -/
def metricsC : Metrics :=
  [("safety", PyFloat.val (4/10)), ("transport", PyFloat.val (5/10)),
   ("green", PyFloat.val (7/10)), ("services", PyFloat.val (6/10))]

/-- Embeds pandas `Series.rank(ascending=False, method='min')` for one
entry: tied scores share the lowest rank among the ties, i.e. the rank of
`x` is one plus the number of strictly greater scores
(`src/src/observers/recommendation_observer.py`, lines 67-70). -/
def rank_min_desc (scores : List ℚ) (x : ℚ) : ℕ :=
  1 + (scores.filter fun y => decide (x < y)).length

/-- The final quality-of-life scores of the scenario districts. -/
def qolFinalScoresABC : List ℚ :=
  [calculate_final_score qolStrategy metricsA,
   calculate_final_score qolStrategy metricsB,
   calculate_final_score qolStrategy metricsC]

/-! ### Normalization utilities (src/src/analyzers/normalizer.py) -/

/-- Embeds `normalize_min_max` (lines 10-55).  `none` models the
`IndexError` Python raises on `values[0]` for an empty input.  Over exact
rationals a constant array always triggers the first (all-equal) branch;
`np.nanmin`/`np.nanmax` are plain list minimum/maximum, and
`np.full_like` is `List.replicate`. -/
def normalize_min_max (values : List ℚ) (feature_range : ℚ × ℚ) : Option (List ℚ) :=
  match values with
  | [] => none
  | v0 :: _ =>
    if values.all fun x => decide (x = v0) then
      some (List.replicate values.length ((feature_range.1 + feature_range.2) / 2))
    else
      let min_val := values.foldl min v0
      let max_val := values.foldl max v0
      if max_val = min_val then
        some (List.replicate values.length ((feature_range.1 + feature_range.2) / 2))
      else
        some (values.map fun x =>
          (x - min_val) / (max_val - min_val) * (feature_range.2 - feature_range.1)
            + feature_range.1)

/-! ### Cache read and analysis entry point
(src/src/analyzers/district_analyzer.py) -/

/-- The deserialized cache record as `get_cached_metrics` inspects it:
whether all of the required keys `metrics_df`, `timestamp`, `config_hash`
and `version` are present, the stored version and configuration hash, whether
the stored timestamp parses as an ISO date (`datetime.fromisoformat`
raises otherwise), the resulting age in hours, and the columns of the
stored metrics table. -/
structure CachedRecord where
  hasAllRequiredKeys : Bool
  version : String
  config_hash : String
  timestampParses : Bool
  ageHours : ℚ
  cols : List String
deriving DecidableEq, Repr

/-- Outcome of `pickle.load` on the cache file: an exception, a value
that is not a dict, or a dict-shaped record. -/
inductive PickleResult where
  | raises
  | notDict
  | dict (r : CachedRecord)
deriving DecidableEq, Repr

/-- Observable outcome of a cache read: whether it hit (returned a
metrics table) and whether the cache file was deleted (the `unlink` in
the exception handler). -/
structure CacheReadResult where
  hit : Bool
  deleted : Bool
deriving DecidableEq, Repr

/-- The metric columns required of a cached table. -/
def required_cols : List String :=
  ["district_name", "safety", "transport", "green", "services"]

/-- The current software version compared against the cached one. -/
def current_version : String := "1.0.0"

/-- Embeds `DistrictAnalyzer.get_cached_metrics` (lines 374-450).  The
validation chain runs inside a `try`: a non-dict record or missing
required keys return `None` directly (no deletion); version, config-hash,
TTL and column mismatches also return `None` directly; only an exception
(a failing `pickle.load`, modelled by `raises`, or an unparsable
timestamp) reaches the handler that deletes the file. -/
def get_cached_metrics (fileExists : Bool) (load : PickleResult)
    (current_hash : String) (ttl_hours : ℚ) : CacheReadResult :=
  if fileExists = false then ⟨false, false⟩
  else
    match load with
    | .raises => ⟨false, true⟩
    | .notDict => ⟨false, false⟩
    | .dict r =>
      if r.hasAllRequiredKeys = false then ⟨false, false⟩
      else if r.version ≠ current_version then ⟨false, false⟩
      else if r.config_hash ≠ current_hash then ⟨false, false⟩
      else if r.timestampParses = false then ⟨false, true⟩
      else if ttl_hours < r.ageHours then ⟨false, false⟩
      else if (required_cols.all fun c => r.cols.contains c) = false then ⟨false, false⟩
      else ⟨true, false⟩

/-- Observable outcome of `analyze_all_districts`: the cached table, a
freshly computed table, or the `ValueError` raised when no districts were
loaded. -/
inductive AnalyzeResult where
  | cached
  | computed
  | errorNoDistricts
deriving DecidableEq, Repr

/-- Embeds `DistrictAnalyzer.analyze_all_districts` (lines 196-236): the
cache read is attempted first (when `force_refresh` is false and caching
is enabled) and a hit returns immediately; only afterwards is the
districts-loaded precondition checked. -/
def analyze_all_districts (districtsLoaded cacheEnabled : Bool)
    (fileExists : Bool) (load : PickleResult) (current_hash : String)
    (ttl_hours : ℚ) (force_refresh : Bool) : AnalyzeResult :=
  if force_refresh = false ∧ cacheEnabled = true ∧
      (get_cached_metrics fileExists load current_hash ttl_hours).hit = true then
    .cached
  else if districtsLoaded = false then .errorNoDistricts
  else .computed

/-! ### Observable map state and observers
(src/src/observers/map_state.py, src/src/observers/cache_observer.py) -/

/-- A Python value stored in `additional_params` (`Any`); `pynone` is
Python `None`, also the result of `dict.get` on a missing key. -/
inductive PyVal where
  | pynone
  | pyint (n : ℤ)
  | pystr (s : String)
deriving DecidableEq, Repr

/-- Viewport bounds (`north`/`south`/`east`/`west`). -/
structure Bounds where
  north : ℚ
  south : ℚ
  east : ℚ
  west : ℚ
deriving DecidableEq, Repr

/-- A `notify(change_type, **kwargs)` invocation with its payload. -/
inductive MapEvent where
  | strategyChange (old_strategy new_strategy : Option String)
  | layersChange (old_layers new_layers added removed : Finset String)
  | layerToggle (layer_name : String) (is_active : Bool)
  | viewportChange (old_bounds : Option Bounds) (new_bounds : Bounds)
  | paramChange (param_name : String) (old_value new_value : PyVal)
  | resetEvent
deriving DecidableEq

/-- The observable state of `MapState` (strategies identified by name;
the observer list is not part of the state model — see `notify`). -/
structure MapState where
  current_strategy : Option String
  active_layers : Finset String
  viewport_bounds : Option Bounds
  additional_params : List (String × PyVal)
  notifications_enabled : Bool
deriving DecidableEq

/-- Embeds `MapState.notify`: when notifications are enabled the event is
delivered synchronously to every registered observer in attachment order;
the returned list records the emitted events, so an empty list means no
observer's `update` method runs. -/
def notify (s : MapState) (e : MapEvent) : List MapEvent :=
  if s.notifications_enabled then [e] else []

/-- Embeds `set_strategy` (lines 108-126): stores the new strategy and
notifies — with no comparison of the old and new value. -/
def set_strategy (s : MapState) (strategy : String) : MapState × List MapEvent :=
  let old_strategy := s.current_strategy
  let s2 := { s with current_strategy := some strategy }
  (s2, notify s2 (.strategyChange old_strategy (some strategy)))

/-- Embeds `set_active_layers` (lines 132-158): computes the added and
removed sets and notifies only when one of them is nonempty. -/
def set_active_layers (s : MapState) (layers : Finset String) :
    MapState × List MapEvent :=
  let old_layers := s.active_layers
  let s2 := { s with active_layers := layers }
  let added := layers \ old_layers
  let removed := old_layers \ layers
  if added ≠ ∅ ∨ removed ≠ ∅ then
    (s2, notify s2 (.layersChange old_layers layers added removed))
  else (s2, [])

/-- Embeds `toggle_layer` (lines 160-180): flips membership of the layer
and always notifies with change type `layer_toggle`. -/
def toggle_layer (s : MapState) (layer_name : String) : MapState × List MapEvent :=
  let s2 :=
    if layer_name ∈ s.active_layers then
      { s with active_layers := s.active_layers.erase layer_name }
    else
      { s with active_layers := insert layer_name s.active_layers }
  (s2, notify s2 (.layerToggle layer_name (decide (layer_name ∈ s2.active_layers))))

/-- Embeds `_bounds_changed_significantly` (lines 207-226) with its
default threshold 0.01: any bound moving by more than the threshold is
significant; a previously unset viewport always is. -/
def bounds_changed_significantly (old_bounds : Option Bounds)
    (new_bounds : Bounds) : Bool :=
  match old_bounds with
  | none => true
  | some o =>
    decide (1/100 < |o.north - new_bounds.north|) ||
    decide (1/100 < |o.south - new_bounds.south|) ||
    decide (1/100 < |o.east - new_bounds.east|) ||
    decide (1/100 < |o.west - new_bounds.west|)

/-- Embeds `set_viewport_bounds` (lines 186-205): stores the new bounds
and notifies only on a significant change. -/
def set_viewport_bounds (s : MapState) (bounds : Bounds) :
    MapState × List MapEvent :=
  let old_bounds := s.viewport_bounds
  let s2 := { s with viewport_bounds := some bounds }
  if bounds_changed_significantly old_bounds bounds then
    (s2, notify s2 (.viewportChange old_bounds bounds))
  else (s2, [])

/-- `self._additional_params.get(key)`: `None` on a missing key. -/
def paramsGet (params : List (String × PyVal)) (k : String) : PyVal :=
  match List.lookup k params with
  | some v => v
  | none => .pynone

/-- Dict assignment `self._additional_params[key] = value`. -/
def paramsSet (params : List (String × PyVal)) (k : String) (v : PyVal) :
    List (String × PyVal) :=
  match params with
  | [] => [(k, v)]
  | p :: rest => if p.1 = k then (k, v) :: rest else p :: paramsSet rest k v

/-- Embeds `set_param` (lines 228-247): stores the value, then notifies
only when `old_value != value`. -/
def set_param (s : MapState) (key : String) (value : PyVal) :
    MapState × List MapEvent :=
  let old_value := paramsGet s.additional_params key
  let s2 := { s with additional_params := paramsSet s.additional_params key value }
  if old_value ≠ value then
    (s2, notify s2 (.paramChange key old_value value))
  else (s2, [])

/-- Embeds `reset` (lines 264-270): clears the whole state and always
notifies with change type `reset`. -/
def state_reset (s : MapState) : MapState × List MapEvent :=
  let s2 : MapState :=
    { current_strategy := none, active_layers := ∅, viewport_bounds := none,
      additional_params := [], notifications_enabled := s.notifications_enabled }
  (s2, notify s2 .resetEvent)

/-- The fixed metric-affecting layer-name set of
`CacheObserver._invalidate_cache` (line 41). -/
def affected_layers : Finset String :=
  {"crimes", "bus_routes", "bus_stops", "metro", "parks", "services"}

/-- Embeds `CacheObserver.update` (lines 10-58): returns whether
`analyzer.invalidate_cache()` is called for the event.  Only the change
types `layers`, `param` and `reset` reach `_invalidate_cache`; a `layers`
change invalidates only when the added or the removed set meets the
metric-affecting set. -/
def cacheObserver_update (e : MapEvent) : Bool :=
  match e with
  | .layersChange _ _ added removed =>
    decide ((added ∩ affected_layers).Nonempty ∨
            (removed ∩ affected_layers).Nonempty)
  | .paramChange _ _ _ => true
  | .resetEvent => true
  | _ => false

/-- A fresh enabled map state holding the quality-of-life strategy. -/
def idleState : MapState :=
  ⟨some "Calidad de Vida", ∅, none, [], true⟩

/-! ### Fold/sum correspondence for calculate_score -/

/-- The accumulating loop of `calculate_score` computes exactly the
spec-side filtered sums, for any starting accumulator. -/
theorem scoreFold_eq (metrics : Metrics) (weights : List (String × ℚ)) :
    ∀ a b : ℚ,
      weights.foldl (scoreStep metrics) (a, b) =
        (a + availWeightedSum weights metrics, b + availWeight weights metrics) := by
  induction weights with
  | nil =>
      intro a b
      simp [availWeightedSum, availWeight]
  | cons p rest ih =>
      intro a b
      rcases p with ⟨k, w⟩
      by_cases h : metricAvailable metrics k = true
      · have hv : metricsLookup metrics k = some (PyFloat.val (metricValue metrics k)) := by
          unfold metricAvailable at h
          unfold metricValue
          rcases hl : metricsLookup metrics k with _ | v
          · rw [hl] at h; simp at h
          · rcases v with _ | q
            · rw [hl] at h; simp at h
            · rfl
        have hstep : scoreStep metrics (a, b) (k, w) =
            (a + metricValue metrics k * w, b + w) := by
          simp [scoreStep, hv]
        rw [List.foldl_cons, hstep, ih]
        simp only [availWeightedSum, availWeight, List.filter_cons, h]
        simp [List.map_cons, List.sum_cons]
        ring_nf
        constructor <;> ring
      · have hb : metricAvailable metrics k = false := by
          cases hmb : metricAvailable metrics k
          · rfl
          · exact absurd hmb h
        have hstep : scoreStep metrics (a, b) (k, w) = (a, b) := by
          unfold metricAvailable at hb
          unfold scoreStep
          rcases hl : metricsLookup metrics k with _ | v
          · simp
          · rcases v with _ | q
            · simp
            · rw [hl] at hb; simp at hb
        rw [List.foldl_cons, hstep, ih]
        simp only [availWeightedSum, availWeight, List.filter_cons, hb]
        simp

/-- `calculate_score` agrees with the code-shaped normalized average
(guard `0 < total_weight`). -/
theorem calculate_score_eq (weights : List (String × ℚ)) (metrics : Metrics) :
    calculate_score weights metrics =
      if 0 < availWeight weights metrics then
        availWeightedSum weights metrics / availWeight weights metrics
      else 0 := by
  unfold calculate_score
  rw [scoreFold_eq metrics weights 0 0]
  simp

/-- For a weight map with nonnegative weights, the code's guard
`0 < total_weight` and the specification's guard `total_weight = 0`
define the same function. -/
theorem calculate_score_eq_specScore (weights : List (String × ℚ)) (metrics : Metrics)
    (hnn : ∀ p ∈ weights, 0 ≤ p.2) :
    calculate_score weights metrics = specScore weights metrics := by
  have hW : 0 ≤ availWeight weights metrics := by
    unfold availWeight
    apply List.sum_nonneg
    intro x hx
    simp only [List.mem_map] at hx
    rcases hx with ⟨p, hp, rfl⟩
    exact hnn p (List.mem_of_mem_filter hp)
  rw [calculate_score_eq]
  unfold specScore
  rcases lt_or_eq_of_le hW with hpos | hzero
  · rw [if_pos hpos, if_neg (by linarith)]
  · rw [if_neg (by rw [← hzero]; exact lt_irrefl 0), if_pos hzero.symm]

/-- Claim C1: for every strategy (quality-of-life, tourist, convenience)
and every metrics mapping, `calculate_score` equals the weight-normalized
average `Σ(weight_m * metrics[m]) / Σ(weight_m)` over exactly the metric
names that appear in both the strategy's weight map and the input with a
non-NaN value (absent or NaN metrics excluded from numerator and
denominator), and it equals `0` when the total available weight is `0`. -/
theorem C1_calculate_score_is_weight_normalized_average :
    ∀ metrics : Metrics,
      calculate_score qol_weights metrics = specScore qol_weights metrics ∧
      calculate_score tourist_weights metrics = specScore tourist_weights metrics ∧
      calculate_score convenience_weights metrics = specScore convenience_weights metrics := by
  intro metrics
  refine ⟨?_, ?_, ?_⟩ <;>
    apply calculate_score_eq_specScore <;>
    · intro p hp
      simp only [qol_weights, tourist_weights, convenience_weights,
        List.mem_cons, List.not_mem_nil, or_false] at hp
      rcases hp with h | h | h | h <;> subst h <;> norm_num

/-! ### Range bounds for the metric calculators (claim C2) -/

/-- A successful association-list lookup yields a member of the list. -/
theorem lookup_mem {α β : Type} [BEq α] [LawfulBEq α] {k : α} {w : β} :
    ∀ {l : List (α × β)}, List.lookup k l = some w → (k, w) ∈ l := by
  intro l
  induction l with
  | nil => intro h; simp [List.lookup] at h
  | cons p rest ih =>
    intro h
    rcases p with ⟨a, b⟩
    rw [List.lookup] at h
    by_cases hk : (k == a) = true
    · rw [hk] at h
      simp only [Option.some.injEq] at h
      subst h
      have : k = a := eq_of_beq hk
      subst this
      exact List.mem_cons_self _ _
    · rw [Bool.not_eq_true] at hk
      rw [hk] at h
      exact List.mem_cons_of_mem _ (ih h)

/-- The `np.clip(x, 0.0, 1.0)` idiom stays in the unit interval. -/
theorem clip01_mem (x : ℚ) : 0 ≤ min 1 (max 0 x) ∧ min 1 (max 0 x) ≤ 1 :=
  ⟨le_min (by norm_num) (le_max_left 0 x), min_le_left 1 (max 0 x)⟩

/-- The safety score always lies in `[0, 1]`. -/
theorem calculate_safety_score_mem_unit (polygonValid : Bool)
    (crime : Option (List CrimeZone)) (invert_scale : Bool) :
    0 ≤ calculate_safety_score polygonValid crime invert_scale ∧
      calculate_safety_score polygonValid crime invert_scale ≤ 1 := by
  unfold calculate_safety_score
  split
  · norm_num
  · rcases crime with _ | zones
    · norm_num
    · simp only
      split
      · norm_num
      · split
        · norm_num
        · exact clip01_mem _

/-- The transport score always lies in `[0, 1]`. -/
theorem calculate_transport_score_mem_unit (inp : TransportInput) :
    0 ≤ calculate_transport_score inp ∧ calculate_transport_score inp ≤ 1 := by
  unfold calculate_transport_score
  split
  · norm_num
  · simp only
    split
    · norm_num
    · split
      · norm_num
      · exact clip01_mem _

/-- Every POI weight is nonnegative. -/
theorem poi_weight_nonneg (p : POI) : 0 ≤ poi_weight p := by
  unfold poi_weight
  rcases p with ⟨shop, tourism⟩
  rcases shop with _ | s
  · rcases tourism with _ | t
    · norm_num
    · simp only
      rcases h : List.lookup t services_weight_table with _ | w
      · norm_num
      · have : w ∈ (services_weight_table.map Prod.snd) := by
          have hmem := lookup_mem h
          exact List.mem_map.mpr ⟨(t, w), hmem, rfl⟩
        simp only [services_weight_table, List.map_cons, List.map_nil,
          List.mem_cons, List.not_mem_nil, or_false] at this
        rcases this with h' | h' | h' | h' | h' | h' | h' <;> rw [h'] <;> norm_num
  · simp only
    split <;> norm_num

/-- The services score always lies in `[0, 1]`. -/
theorem calculate_services_score_mem_unit (polygonValid layerPresent : Bool)
    (pois : List POI) :
    0 ≤ calculate_services_score polygonValid layerPresent pois ∧
      calculate_services_score polygonValid layerPresent pois ≤ 1 := by
  unfold calculate_services_score
  split
  · norm_num
  · split
    · norm_num
    · split
      · norm_num
      · have hsum : 0 ≤ (pois.map poi_weight).sum := by
          apply List.sum_nonneg
          intro x hx
          rcases List.mem_map.mp hx with ⟨p, _, rfl⟩
          exact poi_weight_nonneg p
        constructor
        · exact le_min (by positivity) (by norm_num)
        · exact min_le_right _ 1

/-- The area coverage is nonnegative and at most 1 when the polygon area
and all intersection areas are nonnegative (true of geometric areas). -/
theorem calculate_area_coverage_mem_unit (polygonValid : Bool) (polygonArea : ℚ)
    (layer : List Park) (hA : 0 ≤ polygonArea)
    (hl : ∀ p ∈ layer, 0 ≤ p.interArea) :
    0 ≤ calculate_area_coverage polygonValid polygonArea layer ∧
      calculate_area_coverage polygonValid polygonArea layer ≤ 1 := by
  unfold calculate_area_coverage
  split
  · norm_num
  · split
    · norm_num
    · rename_i hne
      split
      · norm_num
      · rename_i hA0
        dsimp only
        split
        · norm_num
        · have htot : 0 ≤ ((layer.filter fun p => p.intersectsDistrict).map
              fun p => if p.geomValid then p.interArea else 0).sum := by
            apply List.sum_nonneg
            intro x hx
            rcases List.mem_map.mp hx with ⟨p, hp, rfl⟩
            have hpa := hl p (List.mem_of_mem_filter hp)
            split
            · exact hpa
            · exact le_refl 0
          have hApos : 0 < polygonArea := lt_of_le_of_ne hA (Ne.symm hA0)
          exact ⟨le_min (div_nonneg htot hApos.le) (by norm_num), min_le_right _ 1⟩

/-- Claim C2 (amended): for every district and overlay input, the safety,
transport and services calculators return values in `[0, 1]`
unconditionally; the green calculator returns a value in `[0, 1]`
provided the configured ideal-coverage target is positive (as in every
shipped configuration — with a negative target the green score can fall
below 0, see the counterexample); and for each of the three strategies
`calculate_final_score` returns a value in `[0, 1]` for every metrics
mapping. -/
theorem C2_amended_metric_and_final_scores_in_unit_interval
    (pv : Bool) (crime : Option (List CrimeZone)) (inv : Bool)
    (tinp : TransportInput)
    (gpv lp : Bool) (parea : ℚ) (parksOpt : Option (List Park))
    (ideal minArea : ℚ) (pois : List POI) (metrics : Metrics)
    (hideal : 0 < ideal) (hparea : 0 ≤ parea)
    (hparks : ∀ l, parksOpt = some l → ∀ p ∈ l, 0 ≤ p.interArea) :
    (0 ≤ calculate_safety_score pv crime inv ∧
      calculate_safety_score pv crime inv ≤ 1) ∧
    (0 ≤ calculate_transport_score tinp ∧ calculate_transport_score tinp ≤ 1) ∧
    (0 ≤ calculate_green_score gpv parea parksOpt ideal minArea ∧
      calculate_green_score gpv parea parksOpt ideal minArea ≤ 1) ∧
    (0 ≤ calculate_services_score pv lp pois ∧
      calculate_services_score pv lp pois ≤ 1) ∧
    (0 ≤ calculate_final_score qolStrategy metrics ∧
      calculate_final_score qolStrategy metrics ≤ 1) ∧
    (0 ≤ calculate_final_score touristStrategy metrics ∧
      calculate_final_score touristStrategy metrics ≤ 1) ∧
    (0 ≤ calculate_final_score convenienceStrategy metrics ∧
      calculate_final_score convenienceStrategy metrics ≤ 1) := by
  have hfinal : ∀ s : Strategy, 0 ≤ calculate_final_score s metrics ∧
      calculate_final_score s metrics ≤ 1 := by
    intro s
    unfold calculate_final_score
    exact ⟨le_max_left 0 _, max_le (by norm_num) (min_le_left 1 _)⟩
  have hgreen : 0 ≤ calculate_green_score gpv parea parksOpt ideal minArea ∧
      calculate_green_score gpv parea parksOpt ideal minArea ≤ 1 := by
    unfold calculate_green_score
    split
    · norm_num
    · rcases hpo : parksOpt with _ | parks
      · norm_num
      · simp only
        split
        · norm_num
        · split
          · norm_num
          · split
            · norm_num
            · split
              · norm_num
              · have hmem := calculate_area_coverage_mem_unit gpv parea
                  ((parks.filter fun p => p.isPolygonal).filter
                    fun p => minArea ≤ p.areaUTM) hparea
                  (by
                    intro p hp
                    exact hparks parks hpo p
                      (List.mem_of_mem_filter (List.mem_of_mem_filter hp)))
                exact ⟨le_min (div_nonneg hmem.1 hideal.le) (by norm_num),
                  min_le_right _ 1⟩
  exact ⟨calculate_safety_score_mem_unit pv crime inv,
    calculate_transport_score_mem_unit tinp,
    hgreen,
    calculate_services_score_mem_unit pv lp pois,
    hfinal qolStrategy, hfinal touristStrategy, hfinal convenienceStrategy⟩

/-- Witness for the amended C2 at a concrete input. -/
theorem C2_amended_witness :
    (0 ≤ calculate_safety_score true (some [⟨3, 2⟩]) true ∧
      calculate_safety_score true (some [⟨3, 2⟩]) true ≤ 1) ∧
    (0 ≤ calculate_transport_score ⟨true, some ⟨4, 2⟩, some 3, some (.stations 1 none)⟩ ∧
      calculate_transport_score ⟨true, some ⟨4, 2⟩, some 3, some (.stations 1 none)⟩ ≤ 1) ∧
    (0 ≤ calculate_green_score true 2 (some [⟨true, 2000, true, true, 1⟩]) (15/100) 1000 ∧
      calculate_green_score true 2 (some [⟨true, 2000, true, true, 1⟩]) (15/100) 1000 ≤ 1) ∧
    (0 ≤ calculate_services_score true true [⟨some "mall", none⟩] ∧
      calculate_services_score true true [⟨some "mall", none⟩] ≤ 1) ∧
    (0 ≤ calculate_final_score qolStrategy metricsA ∧
      calculate_final_score qolStrategy metricsA ≤ 1) ∧
    (0 ≤ calculate_final_score touristStrategy metricsA ∧
      calculate_final_score touristStrategy metricsA ≤ 1) ∧
    (0 ≤ calculate_final_score convenienceStrategy metricsA ∧
      calculate_final_score convenienceStrategy metricsA ≤ 1) :=
  C2_amended_metric_and_final_scores_in_unit_interval
    true (some [⟨3, 2⟩]) true
    ⟨true, some ⟨4, 2⟩, some 3, some (.stations 1 none)⟩
    true true 2 (some [⟨true, 2000, true, true, 1⟩]) (15/100) 1000
    [⟨some "mall", none⟩] metricsA
    (by norm_num) (by norm_num)
    (by
      intro l hl p hp
      simp only [Option.some.injEq] at hl
      subst hl
      simp only [List.mem_cons, List.not_mem_nil, or_false] at hp
      subst hp
      norm_num)

/-- Claim C2 is false as stated: with a negative ideal-green-coverage
target (a configuration the code accepts), the green calculator returns
a negative value — the code caps the green score only from above. -/
theorem C2_counterexample_green_score_negative :
    calculate_green_score true 2 (some [⟨true, 2000, true, true, 1⟩])
        (-(15/100)) 1000 = -(10/3) ∧
    ¬ (0 ≤ calculate_green_score true 2 (some [⟨true, 2000, true, true, 1⟩])
        (-(15/100)) 1000) := by
  have h : calculate_green_score true 2 (some [⟨true, 2000, true, true, 1⟩])
      (-(15/100)) 1000 = -(10/3) := by
    norm_num [calculate_green_score, calculate_area_coverage, List.filter,
      List.isEmpty, List.map, List.sum, min_def]
  refine ⟨h, ?_⟩
  rw [h]
  norm_num

/-! ### The quality-of-life example scenario (claim C7) -/

/-- Claim C7 is false as stated: the raw quality-of-life scores are
A:0.715 (not ≈0.725), B:0.62 (not ≈0.605) and C:0.51 (not ≈0.525) — off
by 0.010, 0.015 and 0.015 respectively, i.e. wrong already in the second
decimal place. -/
theorem C7_counterexample_raw_scores :
    calculate_score qol_weights metricsA = 715/1000 ∧
    calculate_score qol_weights metricsB = 62/100 ∧
    calculate_score qol_weights metricsC = 51/100 ∧
    (715/1000 : ℚ) ≠ 725/1000 ∧ (62/100 : ℚ) ≠ 605/1000 ∧
    (51/100 : ℚ) ≠ 525/1000 ∧
    |(715/1000 : ℚ) - 725/1000| = 10/1000 ∧
    |(62/100 : ℚ) - 605/1000| = 15/1000 ∧
    |(51/100 : ℚ) - 525/1000| = 15/1000 := by
  refine ⟨?_, ?_, ?_, by norm_num, by norm_num, by norm_num, ?_, ?_, ?_⟩
  · simp only [calculate_score, scoreStep, metricsLookup, List.lookup,
      qol_weights, metricsA, List.foldl, String.reduceBEq, beq_self_eq_true]
    norm_num
  · simp only [calculate_score, scoreStep, metricsLookup, List.lookup,
      qol_weights, metricsB, List.foldl, String.reduceBEq, beq_self_eq_true]
    norm_num
  · simp only [calculate_score, scoreStep, metricsLookup, List.lookup,
      qol_weights, metricsC, List.foldl, String.reduceBEq, beq_self_eq_true]
    norm_num
  · rw [abs_of_nonpos (by norm_num)]; norm_num
  · rw [abs_of_nonneg (by norm_num)]; norm_num
  · rw [abs_of_nonpos (by norm_num)]; norm_num

/-- Claim C7 (amended): in the three-district scenario the
quality-of-life raw weighted scores are A:0.715, B:0.62, C:0.51; no
penalty or bonus threshold fires (the final scores equal the raw ones);
and the min-method descending ranking is A(1) > B(2) > C(3). -/
theorem C7_amended_scenario_ranking :
    calculate_score qol_weights metricsA = 715/1000 ∧
    calculate_score qol_weights metricsB = 62/100 ∧
    calculate_score qol_weights metricsC = 51/100 ∧
    qol_apply_penalties metricsA (715/1000) = 715/1000 ∧
    qol_apply_penalties metricsB (62/100) = 62/100 ∧
    qol_apply_penalties metricsC (51/100) = 51/100 ∧
    qol_apply_bonuses metricsA (715/1000) = 715/1000 ∧
    qol_apply_bonuses metricsB (62/100) = 62/100 ∧
    qol_apply_bonuses metricsC (51/100) = 51/100 ∧
    calculate_final_score qolStrategy metricsA = 715/1000 ∧
    calculate_final_score qolStrategy metricsB = 62/100 ∧
    calculate_final_score qolStrategy metricsC = 51/100 ∧
    rank_min_desc qolFinalScoresABC (calculate_final_score qolStrategy metricsA) = 1 ∧
    rank_min_desc qolFinalScoresABC (calculate_final_score qolStrategy metricsB) = 2 ∧
    rank_min_desc qolFinalScoresABC (calculate_final_score qolStrategy metricsC) = 3 := by
  have hA : calculate_score qol_weights metricsA = 715/1000 := by
    simp only [calculate_score, scoreStep, metricsLookup, List.lookup,
      qol_weights, metricsA, List.foldl, String.reduceBEq, beq_self_eq_true]
    norm_num
  have hB : calculate_score qol_weights metricsB = 62/100 := by
    simp only [calculate_score, scoreStep, metricsLookup, List.lookup,
      qol_weights, metricsB, List.foldl, String.reduceBEq, beq_self_eq_true]
    norm_num
  have hC : calculate_score qol_weights metricsC = 51/100 := by
    simp only [calculate_score, scoreStep, metricsLookup, List.lookup,
      qol_weights, metricsC, List.foldl, String.reduceBEq, beq_self_eq_true]
    norm_num
  have hpA : qol_apply_penalties metricsA (715/1000) = 715/1000 := by
    simp only [qol_apply_penalties, metricsGet, metricsLookup, List.lookup,
      metricsA, pyLt, String.reduceBEq, beq_self_eq_true]
    norm_num
  have hpB : qol_apply_penalties metricsB (62/100) = 62/100 := by
    simp only [qol_apply_penalties, metricsGet, metricsLookup, List.lookup,
      metricsB, pyLt, String.reduceBEq, beq_self_eq_true]
    norm_num
  have hpC : qol_apply_penalties metricsC (51/100) = 51/100 := by
    simp only [qol_apply_penalties, metricsGet, metricsLookup, List.lookup,
      metricsC, pyLt, String.reduceBEq, beq_self_eq_true]
    norm_num
  have hbA : qol_apply_bonuses metricsA (715/1000) = 715/1000 := by
    simp only [qol_apply_bonuses, metricsGet, metricsLookup, List.lookup,
      metricsA, pyGt, String.reduceBEq, beq_self_eq_true]
    norm_num
  have hbB : qol_apply_bonuses metricsB (62/100) = 62/100 := by
    simp only [qol_apply_bonuses, metricsGet, metricsLookup, List.lookup,
      metricsB, pyGt, String.reduceBEq, beq_self_eq_true]
    norm_num
  have hbC : qol_apply_bonuses metricsC (51/100) = 51/100 := by
    simp only [qol_apply_bonuses, metricsGet, metricsLookup, List.lookup,
      metricsC, pyGt, String.reduceBEq, beq_self_eq_true]
    norm_num
  have hfA : calculate_final_score qolStrategy metricsA = 715/1000 := by
    unfold calculate_final_score qolStrategy
    simp only [hA, hpA, hbA]
    rw [min_eq_right (by norm_num), max_eq_right (by norm_num)]
  have hfB : calculate_final_score qolStrategy metricsB = 62/100 := by
    unfold calculate_final_score qolStrategy
    simp only [hB, hpB, hbB]
    rw [min_eq_right (by norm_num), max_eq_right (by norm_num)]
  have hfC : calculate_final_score qolStrategy metricsC = 51/100 := by
    unfold calculate_final_score qolStrategy
    simp only [hC, hpC, hbC]
    rw [min_eq_right (by norm_num), max_eq_right (by norm_num)]
  have hlist : qolFinalScoresABC = [715/1000, 62/100, 51/100] := by
    rw [qolFinalScoresABC, hfA, hfB, hfC]
  refine ⟨hA, hB, hC, hpA, hpB, hpC, hbA, hbB, hbC, hfA, hfB, hfC, ?_, ?_, ?_⟩ <;>
    · rw [hlist]
      simp only [hfA, hfB, hfC, rank_min_desc, List.filter, decide_eq_true_eq]
      norm_num

/-! ### Constant-input min-max normalization (claim C8) -/

/-- Claim C8: on every non-empty array all of whose elements equal a
single value `v` — any `v` — `normalize_min_max` returns an array in
which every element equals the midpoint of the target range. -/
theorem C8_minmax_constant_array_gives_midpoint (values : List ℚ) (v lo hi : ℚ)
    (hne : values ≠ []) (hconst : ∀ x ∈ values, x = v) :
    normalize_min_max values (lo, hi) =
      some (List.replicate values.length ((lo + hi) / 2)) := by
  rcases values with _ | ⟨v0, rest⟩
  · exact absurd rfl hne
  · have hv0 : v0 = v := hconst v0 (List.mem_cons_self _ _)
    have hall : (v0 :: rest).all (fun x => decide (x = v0)) = true := by
      rw [List.all_eq_true]
      intro x hx
      rw [decide_eq_true_eq, hconst x hx, hv0]
    unfold normalize_min_max
    simp only [hall, if_true]

/-- Witness for C8 at the constant array `[7, 7, 7]` with target range
`(0, 1)`. -/
theorem C8_minmax_constant_witness :
    ([7, 7, 7] : List ℚ) ≠ [] ∧
    normalize_min_max [7, 7, 7] (0, 1) = some [1/2, 1/2, 1/2] := by
  refine ⟨by simp, ?_⟩
  have h := C8_minmax_constant_array_gives_midpoint [7, 7, 7] 7 0 1 (by simp)
    (by
      intro x hx
      simp only [List.mem_cons, List.not_mem_nil, or_false] at hx
      rcases hx with h | h | h <;> exact h)
  rw [h]
  norm_num [List.replicate]

/-! ### Cache read validation (claim C3) -/

/-- Claim C3 is false as stated: a cache file whose deserialized record
is not a dict, or is a dict missing required fields, yields a miss but
the file is NOT deleted. -/
theorem C3_counterexample_invalid_record_not_deleted :
    (get_cached_metrics true PickleResult.notDict "abc12345" 24).hit = false ∧
    (get_cached_metrics true PickleResult.notDict "abc12345" 24).deleted = false ∧
    (get_cached_metrics true
      (PickleResult.dict ⟨false, "1.0.0", "abc12345", true, 1, []⟩)
      "abc12345" 24).hit = false ∧
    (get_cached_metrics true
      (PickleResult.dict ⟨false, "1.0.0", "abc12345", true, 1, []⟩)
      "abc12345" 24).deleted = false :=
  ⟨rfl, rfl, rfl, rfl⟩

/-- Claim C3 (amended): a structurally invalid record (not a dict, or
missing one of the required fields `metrics_df`, `timestamp`,
`config_hash`, `version`) is treated as a miss WITHOUT deleting the cache
file; the file is deleted only when deserialization (or timestamp
parsing) raises an exception. -/
theorem C3_amended_invalid_record_misses_without_delete
    (current_hash : String) (ttl_hours : ℚ) (r : CachedRecord)
    (hr : r.hasAllRequiredKeys = false) :
    get_cached_metrics true PickleResult.notDict current_hash ttl_hours =
      ⟨false, false⟩ ∧
    get_cached_metrics true (PickleResult.dict r) current_hash ttl_hours =
      ⟨false, false⟩ ∧
    get_cached_metrics true PickleResult.raises current_hash ttl_hours =
      ⟨false, true⟩ := by
  refine ⟨rfl, ?_, rfl⟩
  unfold get_cached_metrics
  simp [hr]

/-- Witness for the amended C3 at a concrete record. -/
theorem C3_amended_witness :
    get_cached_metrics true PickleResult.notDict "abc12345" 24 =
      ⟨false, false⟩ ∧
    get_cached_metrics true
        (PickleResult.dict ⟨false, "1.0.0", "abc12345", true, 1, []⟩)
        "abc12345" 24 = ⟨false, false⟩ ∧
    get_cached_metrics true PickleResult.raises "abc12345" 24 =
      ⟨false, true⟩ :=
  C3_amended_invalid_record_misses_without_delete "abc12345" 24
    ⟨false, "1.0.0", "abc12345", true, 1, []⟩ rfl

/-! ### The analyze precondition versus the cache path (claim C4) -/

/-- Claim C4 is false as stated: with `force_refresh = false`, caching
enabled and a valid cache entry on disk, `analyze_all_districts` returns
the cached table even though districts were never loaded — it does not
raise the precondition error. -/
theorem C4_counterexample_cache_hit_without_districts :
    analyze_all_districts false true true
        (PickleResult.dict ⟨true, "1.0.0", "abc12345", true, 1, required_cols⟩)
        "abc12345" 24 false = AnalyzeResult.cached ∧
    analyze_all_districts false true true
        (PickleResult.dict ⟨true, "1.0.0", "abc12345", true, 1, required_cols⟩)
        "abc12345" 24 false ≠ AnalyzeResult.errorNoDistricts := by
  have heval : analyze_all_districts false true true
      (PickleResult.dict ⟨true, "1.0.0", "abc12345", true, 1, required_cols⟩)
      "abc12345" 24 false = AnalyzeResult.cached := rfl
  refine ⟨heval, ?_⟩
  rw [heval]
  decide

/-- Claim C4 (amended): when districts were never loaded,
`analyze_all_districts` raises the precondition `ValueError` in every
case EXCEPT when `force_refresh` is false, caching is enabled and the
cache read hits — in that case it returns the cached table without ever
checking the precondition. -/
theorem C4_amended_precondition_after_cache (cacheEnabled fileExists : Bool)
    (load : PickleResult) (current_hash : String) (ttl_hours : ℚ)
    (force_refresh : Bool) :
    analyze_all_districts false cacheEnabled fileExists load current_hash
        ttl_hours force_refresh =
      if force_refresh = false ∧ cacheEnabled = true ∧
          (get_cached_metrics fileExists load current_hash ttl_hours).hit = true
      then AnalyzeResult.cached
      else AnalyzeResult.errorNoDistricts := by
  unfold analyze_all_districts
  split
  · rfl
  · rfl

/-! ### Setter notification behaviour (claim C5) -/

/-- Claim C5 is false as stated: `set_strategy` called with the very
strategy already stored still notifies every observer (the source stores
and notifies without comparing old and new). -/
theorem C5_counterexample_same_strategy_still_notifies :
    idleState.current_strategy = some "Calidad de Vida" ∧
    idleState.notifications_enabled = true ∧
    (set_strategy idleState "Calidad de Vida").2 =
      [MapEvent.strategyChange (some "Calidad de Vida")
        (some "Calidad de Vida")] ∧
    (set_strategy idleState "Calidad de Vida").2 ≠ [] := by
  refine ⟨rfl, rfl, rfl, ?_⟩
  intro h
  simp [set_strategy, notify, idleState] at h

/-- Claim C5 (amended): `set_active_layers`, `set_viewport_bounds` and
`set_param` notify only on a real change (no event when the supplied
value equals the stored one, and for the viewport when no bound moves by
more than the 0.01 threshold); `set_strategy` and `reset`, however,
notify unconditionally whenever notifications are enabled, even when
nothing changed. -/
theorem C5_amended_setters_diff_before_notifying (s : MapState) :
    (∀ layers, layers = s.active_layers → (set_active_layers s layers).2 = []) ∧
    (∀ b, bounds_changed_significantly s.viewport_bounds b = false →
      (set_viewport_bounds s b).2 = []) ∧
    (∀ k v, paramsGet s.additional_params k = v → (set_param s k v).2 = []) ∧
    (∀ name, s.notifications_enabled = true → (set_strategy s name).2 =
      [MapEvent.strategyChange s.current_strategy (some name)]) ∧
    (s.notifications_enabled = true →
      (state_reset s).2 = [MapEvent.resetEvent]) := by
  refine ⟨?_, ?_, ?_, ?_, ?_⟩
  · intro layers hl
    subst hl
    simp [set_active_layers]
  · intro b hb
    simp [set_viewport_bounds, hb]
  · intro k v hv
    subst hv
    simp [set_param]
  · intro name hen
    simp [set_strategy, notify, hen]
  · intro hen
    simp [state_reset, notify, hen]

/-- Witness for the amended C5 at a concrete state. -/
theorem C5_amended_witness :
    (set_active_layers idleState ∅).2 = [] ∧
    (set_param idleState "k" PyVal.pynone).2 = [] ∧
    (set_strategy idleState "Turista/Visitante").2 =
      [MapEvent.strategyChange (some "Calidad de Vida")
        (some "Turista/Visitante")] ∧
    (state_reset idleState).2 = [MapEvent.resetEvent] := by
  have h := C5_amended_setters_diff_before_notifying idleState
  exact ⟨h.1 ∅ rfl, h.2.2.1 "k" PyVal.pynone rfl,
    h.2.2.2.1 "Turista/Visitante" rfl, h.2.2.2.2 rfl⟩

/-! ### Cache invalidation on layer changes (claim C6) -/

/-- Claim C6: on a `layers` change the cache observer invalidates the
analyzer's cache exactly when the union of the added and removed
layer-name sets meets the fixed metric-affecting set; a disjoint change
(such as adding only `districts` on top of `parks`) leaves the cache
untouched; and on `reset` it always invalidates. -/
theorem C6_cache_observer_invalidates_iff_metric_affecting :
    (∀ old_layers new_layers added removed : Finset String,
      cacheObserver_update
          (MapEvent.layersChange old_layers new_layers added removed) =
        decide (((added ∪ removed) ∩ affected_layers).Nonempty)) ∧
    cacheObserver_update MapEvent.resetEvent = true ∧
    (set_active_layers ⟨none, {"parks"}, none, [], true⟩
        {"parks", "districts"}).2 =
      [MapEvent.layersChange {"parks"} {"parks", "districts"}
        {"districts"} ∅] ∧
    cacheObserver_update (MapEvent.layersChange {"parks"}
      {"parks", "districts"} {"districts"} ∅) = false := by
  refine ⟨?_, rfl, ?_, ?_⟩
  · intro old_layers new_layers added removed
    unfold cacheObserver_update
    rw [decide_eq_decide, Finset.union_inter_distrib_right]
    constructor
    · rintro (⟨x, hx⟩ | ⟨x, hx⟩)
      · exact ⟨x, Finset.mem_union_left _ hx⟩
      · exact ⟨x, Finset.mem_union_right _ hx⟩
    · rintro ⟨x, hx⟩
      rcases Finset.mem_union.mp hx with h | h
      · exact Or.inl ⟨x, h⟩
      · exact Or.inr ⟨x, h⟩
  · decide
  · decide

/-! ### toggle_layer never invalidates the cache (claim C9) -/

/-- Claim C9: `toggle_layer` notifies with change type `layer_toggle`,
which is not among the change types the cache observer reacts to, so
toggling any layer — metric-affecting names such as `parks` or `crimes`
included — never invalidates the analyzer's cache. -/
theorem C9_toggle_layer_never_invalidates :
    (∀ (s : MapState) (layer_name : String),
      (toggle_layer s layer_name).2 =
        if s.notifications_enabled = true then
          [MapEvent.layerToggle layer_name
            (decide (layer_name ∉ s.active_layers))]
        else []) ∧
    (∀ (layer_name : String) (is_active : Bool),
      cacheObserver_update (MapEvent.layerToggle layer_name is_active) = false) := by
  constructor
  · intro s layer_name
    unfold toggle_layer notify
    by_cases hmem : layer_name ∈ s.active_layers
    · simp only [hmem, if_true]
      by_cases hen : s.notifications_enabled = true
      · simp only [hen, if_true]
        simp [Finset.mem_erase, hmem]
      · simp only [hen, if_false]
        simp only [Bool.not_eq_true] at hen
        simp [hen]
    · simp only [hmem, if_false]
      by_cases hen : s.notifications_enabled = true
      · simp only [hen, if_true]
        simp [Finset.mem_insert, hmem]
      · simp only [hen, if_false]
        simp only [Bool.not_eq_true] at hen
        simp [hen]
  · intro layer_name is_active
    rfl

/-! ### Every param change invalidates the cache (claim C10) -/

/-- Claim C10: whenever `set_param` is called with a value different from
the stored one, a `param` change is notified (when notifications are
enabled) and the cache observer unconditionally invalidates the
analyzer's cache, regardless of which parameter changed. -/
theorem C10_param_change_always_invalidates (s : MapState) (key : String)
    (value : PyVal) (hen : s.notifications_enabled = true)
    (hne : paramsGet s.additional_params key ≠ value) :
    (set_param s key value).2 =
      [MapEvent.paramChange key (paramsGet s.additional_params key) value] ∧
    cacheObserver_update
      (MapEvent.paramChange key (paramsGet s.additional_params key) value) =
        true := by
  constructor
  · unfold set_param notify
    simp [hne, hen]
  · rfl

/-- Witness for C10: setting a fresh parameter on an idle state notifies
and invalidates. -/
theorem C10_param_change_witness :
    (set_param idleState "radius" (PyVal.pyint 5)).2 =
      [MapEvent.paramChange "radius" PyVal.pynone (PyVal.pyint 5)] ∧
    cacheObserver_update
      (MapEvent.paramChange "radius" PyVal.pynone (PyVal.pyint 5)) = true :=
  C10_param_change_always_invalidates idleState "radius" (PyVal.pyint 5)
    rfl (by decide)

end GeonsitQ
